import Mathlib

/-!
Shallow embedding of `sdk/servicebus/azure-servicebus/azure/servicebus/_servicebus_client.py`
(the `ServiceBusClient` facade) together with spec-modelled definitions for the pieces
that file imports from elsewhere in the repository (`_parse_conn_str`,
`ServiceBusSharedKeyCredential`, `Configuration`, `create_authentication`, and the
`ServiceBusSender`/`ServiceBusReceiver` constructors).

Python-specific behaviour that the claims depend on is embedded explicitly:
truthiness of strings and `None` (`pyTruthy`), short-circuit evaluation of `or`
(including the fact that a skipped `kwargs.pop` leaves the key in the dict), and the
`TypeError` raised when a keyword argument is supplied both explicitly and through
`**kwargs` at a call site.
-/

namespace AzureSB

/-- Transport protocol selector, `azure.servicebus.TransportType`
(default `TransportType.Amqp` per the docstrings in the source file). -/
inductive TransportType
  | Amqp
  | AmqpOverWebsocket
deriving DecidableEq, Repr

/-- HTTP proxy settings dictionary, per the source docstring: keys
`proxy_hostname`, `proxy_port`, optional `username`/`password`. -/
structure HttpProxy where
  proxy_hostname : String
  proxy_port : Nat
  username : Option String
  password : Option String
deriving DecidableEq, Repr

/-- Credential passed to the client: either the shared-key credential
`ServiceBusSharedKeyCredential(policy, key)` built by `from_connection_string`,
or an external token credential (opaque here, identified by a tag). -/
inductive Credential
  | sharedKey (policy : String) (key : String)
  | token (tag : String)
deriving DecidableEq, Repr

/-- Keyword-argument dictionary accepted by `ServiceBusClient.__init__` /
`from_connection_string`. `Option` fields model presence of a key in the dict
(`none` = key absent). An explicit `entity_name=None` in Python is modelled as the
key being present with value `none`, which `kwargs.get` cannot distinguish from an
absent key, so presence-with-None is folded into `none` except where the duplicate
keyword check needs the distinction (see `from_connection_string`). -/
structure Kwargs where
  entity_name : Option String
  logging_enable : Option Bool
  transport_type : Option TransportType
  http_proxy : Option HttpProxy
  retry_total : Option Nat
deriving DecidableEq, Repr

/-- The empty keyword dictionary `{}`. -/
def Kwargs.empty : Kwargs :=
  { entity_name := none
    logging_enable := none
    transport_type := none
    http_proxy := none
    retry_total := none }

/-- Python truthiness of an optional string: `None` and `""` are falsy,
every other string is truthy. -/
def pyTruthy : Option String → Bool
  | none => false
  | some s => !(s == "")

/-- Modelled from the spec: the `Configuration` class
(`azure/servicebus/_common/_configuration.py`) is not under `src/`. Per spec §3 it
is the "immutable set of {transport type, proxy settings, retry policy, logging
flag} applied at Facade construction time", and per spec §6 the constructor
keywords and defaults are `logging_enable` (default false), `transport_type`
(default AMQP), `http_proxy`, `retry_total` (default 3). -/
structure Configuration where
  logging_enable : Bool
  transport_type : TransportType
  http_proxy : Option HttpProxy
  retry_total : Nat
deriving DecidableEq, Repr

/-- Modelled from the spec: `Configuration(**kwargs)` reads the recognized
keywords, applying the defaults of spec §6. -/
def Configuration.ofKwargs (k : Kwargs) : Configuration :=
  { logging_enable := k.logging_enable.getD false
    transport_type := k.transport_type.getD TransportType.Amqp
    http_proxy := k.http_proxy
    retry_total := k.retry_total.getD 3 }

/-- Modelled from the spec: `create_authentication`
(`azure/servicebus/_common/utils.py`) is not under `src/`. Per spec §6 the
credential is presented with the resource scope (the client's auth URI), so the
authentication object is modelled as that pair. -/
structure Auth where
  uri : String
  credential : Credential
deriving DecidableEq, Repr

/-- A `uamqp.Connection` as constructed by `_create_uamqp_connection`:
`uamqp.Connection(hostname=..., sasl=auth, debug=...)`, plus a `destroyed` flag
recording that `destroy()` was called on it. -/
structure Connection where
  hostname : String
  sasl : Auth
  debug : Bool
  destroyed : Bool
deriving DecidableEq, Repr

/-- The state of a `ServiceBusClient` object: the instance attributes assigned in
`__init__` (source lines 60–69). -/
structure ServiceBusClient where
  fully_qualified_namespace : String
  credential : Credential
  config : Configuration
  connection : Option Connection
  entity_name : Option String
  auth_uri : String
  connection_sharing : Bool
deriving DecidableEq, Repr

/-- Python errors surfaced by the embedded code: `ParseError` from the
connection-string parser, and `TypeError` raised by the interpreter when a call
supplies the same keyword argument twice. -/
inductive PyError
  | parseError (missingField : String)
  | typeError (msg : String)
deriving DecidableEq, Repr

/-- Boolean equality test on `Except`, used to decide equalities of parser and
constructor results on concrete inputs. -/
def exceptBeq {ε α : Type} [DecidableEq ε] [DecidableEq α] :
    Except ε α → Except ε α → Bool
  | Except.ok a, Except.ok b => a = b
  | Except.error e, Except.error f => e = f
  | _, _ => false

instance {ε α : Type} [DecidableEq ε] [DecidableEq α] : DecidableEq (Except ε α) :=
  fun x y =>
    decidable_of_iff (exceptBeq x y = true)
      (by cases x <;> cases y <;> simp [exceptBeq])

/-- The `ServiceBusClient.__init__` constructor (source lines 53–69):
stores the namespace, credential and `Configuration(**kwargs)`, sets
`_connection = None`, reads `entity_name` from kwargs, derives
`_auth_uri = "sb://<ns>"` extended with `"/<entity>"` when the entity name is
truthy, and sets `_connection_sharing = False`. -/
def ServiceBusClient.init (fqns : String) (cred : Credential) (kwargs : Kwargs) :
    ServiceBusClient :=
  let entity := kwargs.entity_name
  let base := "sb://" ++ fqns
  { fully_qualified_namespace := fqns
    credential := cred
    config := Configuration.ofKwargs kwargs
    connection := none
    entity_name := entity
    auth_uri := if pyTruthy entity then base ++ "/" ++ entity.getD "" else base
    connection_sharing := false }

/-- Split a character list on a separator character, like Python `str.split(sep)`
(always at least one piece; adjacent separators give empty pieces). -/
def splitChars (sep : Char) : List Char → List (List Char)
  | [] => [[]]
  | c :: cs =>
    match splitChars sep cs with
    | [] => if c = sep then [[], []] else [[c]]
    | r :: rs => if c = sep then [] :: r :: rs else (c :: r) :: rs

/-- Re-join pieces with the separator character, like Python `sep.join(...)`. -/
def joinChars (sep : Char) : List (List Char) → List Char
  | [] => []
  | [c] => c
  | c :: c2 :: cs => c ++ sep :: joinChars sep (c2 :: cs)

/-- One `key=value` element of a connection string: Python `element.split("=", 1)`.
Elements without `=` yield no pair. -/
def splitPair (part : String) : Option (String × String) :=
  match splitChars '=' part.data with
  | [] => none
  | [_] => none
  | k :: rest => some (String.mk k, String.mk (joinChars '=' rest))

/-- The `key=value` pairs of a connection string, split on `;`. -/
def connPairs (conn_str : String) : List (String × String) :=
  ((splitChars ';' conn_str.data).map String.mk).filterMap splitPair

/-- Value of field `k` in a connection string, if present. -/
def connLookup (conn_str : String) (k : String) : Option String :=
  ((connPairs conn_str).find? (fun p => p.1 == k)).map Prod.snd

/-- The host portion of an `Endpoint` value: the `sb://` scheme stripped, and a
trailing `/` removed. -/
def hostOf (endpoint : String) : String :=
  let cs := endpoint.data
  let stripped := if cs.take 5 = "sb://".data then cs.drop 5 else cs
  let trimmed := if stripped.getLast? = some '/' then stripped.dropLast else stripped
  String.mk trimmed

/-- Modelled from the spec: `_parse_conn_str` lives in
`azure/servicebus/_base_handler.py`, which is not under `src/`. Per spec §6 the
literal format is
`Endpoint=sb://<namespace>;SharedAccessKeyName=<policy>;SharedAccessKeyValue=<key>[;EntityPath=<name>]`;
the parser fails with `ParseError` on a missing Endpoint / key name / key value,
`EntityPath` is optional, and the host returned is the host portion of the
Endpoint. The result quadruple mirrors the tuple unpacked at source line 129:
`(host, policy, key, entity_in_conn_str)`. -/
def parse_conn_str (conn_str : String) :
    Except PyError (String × String × String × Option String) :=
  match connLookup conn_str "Endpoint" with
  | none => Except.error (PyError.parseError "Endpoint")
  | some ep =>
    match connLookup conn_str "SharedAccessKeyName" with
    | none => Except.error (PyError.parseError "SharedAccessKeyName")
    | some policy =>
      match connLookup conn_str "SharedAccessKeyValue" with
      | none => Except.error (PyError.parseError "SharedAccessKeyValue")
      | some key =>
        Except.ok (hostOf ep, policy, key, connLookup conn_str "EntityPath")

/-- The classmethod `ServiceBusClient.from_connection_string` (source
lines 97–135). The argument `entity_name=entity_in_conn_str or kwargs.pop("entity_name", None)`
is evaluated with Python's short-circuit `or`: when `entity_in_conn_str` is
truthy the `pop` never runs, so a caller-supplied `entity_name` stays inside
`kwargs`, and the call `cls(..., entity_name=..., **kwargs)` then raises
`TypeError` for the duplicated keyword. -/
def from_connection_string (conn_str : String) (kwargs : Kwargs) :
    Except PyError ServiceBusClient :=
  match parse_conn_str conn_str with
  | Except.error e => Except.error e
  | Except.ok (host, policy, key, entity_in_conn_str) =>
    let entityArg :=
      if pyTruthy entity_in_conn_str then entity_in_conn_str else kwargs.entity_name
    let kwargsAfter :=
      if pyTruthy entity_in_conn_str then kwargs
      else { kwargs with entity_name := none }
    if kwargsAfter.entity_name.isSome then
      Except.error
        (PyError.typeError "got multiple values for keyword argument entity_name")
    else
      Except.ok
        (ServiceBusClient.init host (Credential.sharedKey policy key)
          { kwargsAfter with entity_name := entityArg })

/-- `ServiceBusClient._create_uamqp_connection` (source lines 79–85): builds the
authentication via `create_authentication(self)` and assigns
`self._connection = uamqp.Connection(hostname=..., sasl=auth, debug=self._config.logging_enable)`. -/
def ServiceBusClient.create_uamqp_connection (c : ServiceBusClient) : ServiceBusClient :=
  let auth : Auth := { uri := c.auth_uri, credential := c.credential }
  { c with
    connection := some
      { hostname := c.fully_qualified_namespace
        sasl := auth
        debug := c.config.logging_enable
        destroyed := false } }

/-- `ServiceBusClient.__enter__` (source lines 71–74): creates the shared uamqp
connection when `_connection_sharing` is set, then returns `self`. -/
def ServiceBusClient.enter (c : ServiceBusClient) : ServiceBusClient :=
  if c.connection_sharing then c.create_uamqp_connection else c

/-- `ServiceBusClient.close` (source lines 87–95): destroys the shared connection
only when `_connection_sharing` is set and `_connection` is truthy (non-None);
otherwise it does nothing. -/
def ServiceBusClient.close (c : ServiceBusClient) : ServiceBusClient :=
  if c.connection_sharing ∧ c.connection.isSome then
    { c with connection := c.connection.map (fun conn => { conn with destroyed := true }) }
  else c

/-- `ServiceBusClient.__exit__` (source lines 76–77): ignores the exception
triple (`excRaised` records whether the scope is exiting on an error path) and
unconditionally calls `self.close()`. -/
def ServiceBusClient.exitScope (c : ServiceBusClient) (excRaised : Bool) : ServiceBusClient :=
  c.close

/-- Per-call keyword arguments of `get_queue_sender` / `get_queue_receiver`
relevant to the claims: the documented `retry_total` keyword
("Default value is 3", source lines 142–143 and 193–194). -/
structure CallKwargs where
  retry_total : Option Nat
deriving DecidableEq, Repr

/-- The empty per-call keyword dictionary. -/
def CallKwargs.empty : CallKwargs := { retry_total := none }

/-- Modelled from the spec: the `ServiceBusSender` constructor
(`azure/servicebus/_servicebus_sender.py`) is not under `src/`. Its fields record
the keyword arguments passed at source lines 159–168, with `retry_total`
defaulting to 3 per the docstring of `get_queue_sender`. -/
structure ServiceBusSender where
  fully_qualified_namespace : String
  queue_name : String
  credential : Credential
  logging_enable : Bool
  transport_type : TransportType
  http_proxy : Option HttpProxy
  connection : Option Connection
  retry_total : Nat
deriving DecidableEq, Repr

/-- Modelled from the spec: the `ServiceBusReceiver` constructor
(`azure/servicebus/_servicebus_receiver.py`) is not under `src/`. Its fields
record the keyword arguments passed at source lines 213–222, with `retry_total`
defaulting to 3 per the docstring of `get_queue_receiver`. -/
structure ServiceBusReceiver where
  fully_qualified_namespace : String
  queue_name : String
  credential : Credential
  logging_enable : Bool
  transport_type : TransportType
  http_proxy : Option HttpProxy
  connection : Option Connection
  retry_total : Nat
deriving DecidableEq, Repr

/-- `ServiceBusClient.get_queue_sender` (source lines 137–170): constructs a
`ServiceBusSender` from `self.fully_qualified_namespace`, the queue name,
`self._credential`, `self._config.logging_enable`, `self._config.transport_type`,
`self._config.http_proxy`, `self._connection` and the per-call kwargs. The method
assigns nothing to `self`, so the client state it returns is the input state. -/
def ServiceBusClient.get_queue_sender (c : ServiceBusClient) (queue_name : String)
    (kwargs : CallKwargs) : ServiceBusSender × ServiceBusClient :=
  ({ fully_qualified_namespace := c.fully_qualified_namespace
     queue_name := queue_name
     credential := c.credential
     logging_enable := c.config.logging_enable
     transport_type := c.config.transport_type
     http_proxy := c.config.http_proxy
     connection := c.connection
     retry_total := kwargs.retry_total.getD 3 }, c)

/-- `ServiceBusClient.get_queue_receiver` (source lines 172–224): constructs a
`ServiceBusReceiver` from the same client attributes and the per-call kwargs.
The method assigns nothing to `self`. -/
def ServiceBusClient.get_queue_receiver (c : ServiceBusClient) (queue_name : String)
    (kwargs : CallKwargs) : ServiceBusReceiver × ServiceBusClient :=
  ({ fully_qualified_namespace := c.fully_qualified_namespace
     queue_name := queue_name
     credential := c.credential
     logging_enable := c.config.logging_enable
     transport_type := c.config.transport_type
     http_proxy := c.config.http_proxy
     connection := c.connection
     retry_total := kwargs.retry_total.getD 3 }, c)

/-- One public operation on a `ServiceBusClient`. -/
inductive Op
  | enter
  | exitScope (excRaised : Bool)
  | close
  | getSender (queue : String) (kwargs : CallKwargs)
  | getReceiver (queue : String) (kwargs : CallKwargs)

/-- Effect of one operation on the client state. -/
def step (c : ServiceBusClient) : Op → ServiceBusClient
  | Op.enter => c.enter
  | Op.exitScope b => c.exitScope b
  | Op.close => c.close
  | Op.getSender q k => (c.get_queue_sender q k).2
  | Op.getReceiver q k => (c.get_queue_receiver q k).2

/-- Client state after a sequence of operations. -/
def run (c : ServiceBusClient) (ops : List Op) : ServiceBusClient :=
  ops.foldl step c

/-! ## Retry Policy Executor (spec §4.5) -/

/-- Classification of an operation failure, per spec §4.5 / §7: transient errors
are retried, authorization and validation errors are not. -/
inductive ErrClass
  | transient
  | authorization
  | validation
deriving DecidableEq, Repr

/-- Result of one attempt of a wrapped operation. -/
inductive AttemptResult (α : Type)
  | ok (a : α)
  | err (c : ErrClass)
deriving DecidableEq, Repr

/-- Outcome of running an operation under the retry executor. `attempts` counts
how many attempts were made in total. -/
inductive RetryOutcome (α : Type)
  | ok (a : α) (attempts : Nat)
  | immediate (c : ErrClass) (attempts : Nat)
  | serviceBusError (last : ErrClass) (attempts : Nat)
deriving DecidableEq, Repr

/-- Modelled from the spec: the Retry Policy Executor (spec §4.5) is not under
`src/` (only the `retry_total` keyword of `get_queue_sender`/`get_queue_receiver`
refers to it). It wraps an operation in a bounded retry loop of `retry_total`
attempts, retries only errors classified as transient, propagates authorization
and validation errors immediately, and on exhaustion raises the last error
wrapped as `ServiceBusError` annotated with the attempt count. `op i` is the
result of the `i`-th attempt (0-based); `remaining` is the number of attempts
still allowed. -/
def runRetryFrom {α : Type} (op : Nat → AttemptResult α) (i : Nat) :
    Nat → RetryOutcome α
  | 0 => RetryOutcome.serviceBusError ErrClass.transient i
  | Nat.succ r =>
    match op i with
    | AttemptResult.ok a => RetryOutcome.ok a (i + 1)
    | AttemptResult.err c =>
      if c = ErrClass.transient then
        if r = 0 then RetryOutcome.serviceBusError c (i + 1)
        else runRetryFrom op (i + 1) r
      else RetryOutcome.immediate c (i + 1)

/-- Modelled from the spec: run an operation under the retry executor with the
given `retry_total` (spec §4.5, default 3). -/
def runRetry {α : Type} (op : Nat → AttemptResult α) (retry_total : Nat) :
    RetryOutcome α :=
  runRetryFrom op 0 retry_total

/-! ## Claim theorems -/

/-- C1: the claim says that when the connection string has a non-empty
`EntityPath` and the caller also passes an `entity_name` keyword, the resulting
client's entity name is the `EntityPath`. On the code this call constructs no
client at all: `entity_in_conn_str or kwargs.pop("entity_name", None)`
short-circuits, the `pop` is skipped, `entity_name` stays inside `kwargs`, and
`cls(..., entity_name=..., **kwargs)` raises `TypeError` for the duplicated
keyword — contradicting the docstring, which documents `entity_name` as an
optional keyword of `from_connection_string`. This theorem evaluates the
embedded code at the failing input. -/
theorem C1_entity_path_plus_keyword_raises_type_error :
    from_connection_string
      "Endpoint=sb://ns.servicebus.windows.net;SharedAccessKeyName=p;SharedAccessKeyValue=k;EntityPath=q1"
      { Kwargs.empty with entity_name := some "other" }
    = Except.error
        (PyError.typeError "got multiple values for keyword argument entity_name") := by
  decide

/-- C2: for every connection string whose `Endpoint`, `SharedAccessKeyName` and
`SharedAccessKeyValue` fields are all present, `from_connection_string` returns a
client whose `fully_qualified_namespace` is the host portion of the Endpoint and
whose credential is the shared-key credential built from the extracted policy
name and key. -/
theorem C2_namespace_and_credential_from_conn_str
    (s epv policy key : String)
    (hep : connLookup s "Endpoint" = some epv)
    (hpol : connLookup s "SharedAccessKeyName" = some policy)
    (hkey : connLookup s "SharedAccessKeyValue" = some key) :
    ∃ c, from_connection_string s Kwargs.empty = Except.ok c
      ∧ c.fully_qualified_namespace = hostOf epv
      ∧ c.credential = Credential.sharedKey policy key := by
  unfold from_connection_string parse_conn_str
  rw [hep, hpol, hkey]
  by_cases htr : pyTruthy (connLookup s "EntityPath") = true <;>
    simp [htr, Kwargs.empty, ServiceBusClient.init]

/-- Witness for C2 at the spec's example connection string. -/
theorem C2_witness :
    ∃ c, from_connection_string
        "Endpoint=sb://ns.servicebus.windows.net;SharedAccessKeyName=p;SharedAccessKeyValue=k;EntityPath=q1"
        Kwargs.empty = Except.ok c
      ∧ c.fully_qualified_namespace = hostOf "sb://ns.servicebus.windows.net"
      ∧ c.credential = Credential.sharedKey "p" "k" :=
  C2_namespace_and_credential_from_conn_str
    "Endpoint=sb://ns.servicebus.windows.net;SharedAccessKeyName=p;SharedAccessKeyValue=k;EntityPath=q1"
    "sb://ns.servicebus.windows.net" "p" "k" (by decide) (by decide) (by decide)

/-- C3: on a client whose shared connection was never created (`_connection` is
`None`), any number of `close()` calls — including on an already-closed client —
is a no-op: no error is raised (the embedded `close` is a total function) and
the client state is unchanged. -/
theorem C3_close_without_connection_is_noop
    (c : ServiceBusClient) (n : Nat) (h : c.connection = none) :
    ServiceBusClient.close^[n] c = c := by
  have hc : c.close = c := by
    simp [ServiceBusClient.close, h]
  induction n with
  | zero => rfl
  | succ k ih => rw [Function.iterate_succ_apply, hc, ih]

/-- Witness for C3: two consecutive `close()` calls on a freshly constructed
client leave it unchanged. -/
theorem C3_witness :
    ServiceBusClient.close^[2]
      (ServiceBusClient.init "ns" (Credential.token "t") Kwargs.empty)
    = ServiceBusClient.init "ns" (Credential.token "t") Kwargs.empty :=
  C3_close_without_connection_is_noop
    (ServiceBusClient.init "ns" (Credential.token "t") Kwargs.empty) 2 rfl

/-- A client constructed with `retry_total=5` among its keyword arguments, so
that its `Configuration` records a retry policy of 5. -/
def c4client : ServiceBusClient :=
  ServiceBusClient.init "ns" (Credential.token "t")
    { Kwargs.empty with retry_total := some 5 }

/-- C4 counterexample: the claim says the retry policy fixed at client
construction is passed unchanged to every sender, but `get_queue_sender` passes
only `logging_enable`, `transport_type`, `http_proxy` and `connection` from
`self._config` (source lines 159–168) — never a retry value. For a client whose
configuration has `retry_total = 5`, a sender obtained without a per-call
`retry_total` gets the per-call default 3. -/
theorem C4_counterexample :
    ¬ ((c4client.get_queue_sender "q" CallKwargs.empty).1.retry_total
        = c4client.config.retry_total) := by
  decide

/-- C4 (amended): transport type, http proxy settings and the logging flag fixed
at client construction are passed unchanged to every sender and receiver, but
`retry_total` is not propagated from the client configuration: it is taken from
the per-call keyword arguments of `get_queue_sender` / `get_queue_receiver`,
defaulting to 3. -/
theorem C4_config_propagation (c : ServiceBusClient) (q : String) (k : CallKwargs) :
    ((c.get_queue_sender q k).1.transport_type = c.config.transport_type
      ∧ (c.get_queue_sender q k).1.http_proxy = c.config.http_proxy
      ∧ (c.get_queue_sender q k).1.logging_enable = c.config.logging_enable
      ∧ (c.get_queue_sender q k).1.retry_total = k.retry_total.getD 3)
    ∧ ((c.get_queue_receiver q k).1.transport_type = c.config.transport_type
      ∧ (c.get_queue_receiver q k).1.http_proxy = c.config.http_proxy
      ∧ (c.get_queue_receiver q k).1.logging_enable = c.config.logging_enable
      ∧ (c.get_queue_receiver q k).1.retry_total = k.retry_total.getD 3) :=
  ⟨⟨rfl, rfl, rfl, rfl⟩, ⟨rfl, rfl, rfl, rfl⟩⟩

/-- C5 counterexample: the claim says that whenever an entity name is given the
auth URI is `sb://<namespace>/<entity_name>`, but `__init__` guards the suffix
with Python truthiness (`if self._entity_name:`), so a client constructed with
the empty string as entity name keeps the bare URI `sb://ns` instead of
`sb://ns/`. -/
theorem C5_counterexample :
    ¬ ((ServiceBusClient.init "ns" (Credential.token "t")
          { Kwargs.empty with entity_name := some "" }).auth_uri
        = "sb://" ++ "ns" ++ "/" ++ "") := by
  decide

/-- C5 (amended): the auth URI is `sb://<namespace>` when no entity name is
given or the given entity name is falsy (the empty string), and
`sb://<namespace>/<entity_name>` when a non-empty entity name is given. -/
theorem C5_auth_uri (fqns : String) (cred : Credential) (k : Kwargs) :
    (pyTruthy k.entity_name = false →
      (ServiceBusClient.init fqns cred k).auth_uri = "sb://" ++ fqns)
    ∧ (∀ s, k.entity_name = some s → s ≠ "" →
      (ServiceBusClient.init fqns cred k).auth_uri = "sb://" ++ fqns ++ "/" ++ s) := by
  constructor
  · intro h
    simp [ServiceBusClient.init, h]
  · intro s hs hne
    simp [ServiceBusClient.init, pyTruthy, hs, hne, String.append_assoc]

/-- Witness for C5 at a client without entity name and one with entity name
`"q1"`. -/
theorem C5_witness :
    (ServiceBusClient.init "ns" (Credential.token "t") Kwargs.empty).auth_uri
      = "sb://" ++ "ns"
    ∧ (ServiceBusClient.init "ns" (Credential.token "t")
        { Kwargs.empty with entity_name := some "q1" }).auth_uri
      = "sb://" ++ "ns" ++ "/" ++ "q1" :=
  ⟨(C5_auth_uri "ns" (Credential.token "t") Kwargs.empty).1 (by decide),
   (C5_auth_uri "ns" (Credential.token "t")
      { Kwargs.empty with entity_name := some "q1" }).2 "q1" rfl (by decide)⟩

/-- C6: entering the managed scope (`__enter__`) creates the shared uamqp
connection — hostname of the namespace, SASL auth over the client's auth URI and
credential, debug from the logging flag — exactly when `_connection_sharing` is
set, and leaves the connection untouched otherwise; exiting (`__exit__`) calls
`close()` unconditionally, on normal and error exit paths alike. -/
theorem C6_managed_scope (c : ServiceBusClient) (excRaised : Bool) :
    ((c.enter).connection
      = if c.connection_sharing
        then some
          { hostname := c.fully_qualified_namespace
            sasl := { uri := c.auth_uri, credential := c.credential }
            debug := c.config.logging_enable
            destroyed := false }
        else c.connection)
    ∧ c.exitScope excRaised = c.close := by
  refine ⟨?_, rfl⟩
  by_cases h : c.connection_sharing <;>
    simp [ServiceBusClient.enter, ServiceBusClient.create_uamqp_connection, h]

/-- C7: a connection string missing any of the required fields `Endpoint`,
`SharedAccessKeyName` or `SharedAccessKeyValue` makes `from_connection_string`
fail with a `ParseError`, so no client is constructed. -/
theorem C7_missing_required_field_parse_error (s : String) (kwargs : Kwargs)
    (h : connLookup s "Endpoint" = none
       ∨ connLookup s "SharedAccessKeyName" = none
       ∨ connLookup s "SharedAccessKeyValue" = none) :
    ∃ f, from_connection_string s kwargs = Except.error (PyError.parseError f) := by
  unfold from_connection_string parse_conn_str
  rcases h with h | h | h
  · rw [h]
    exact ⟨"Endpoint", rfl⟩
  · cases he : connLookup s "Endpoint" with
    | none => exact ⟨"Endpoint", rfl⟩
    | some ep =>
      rw [h]
      exact ⟨"SharedAccessKeyName", rfl⟩
  · cases he : connLookup s "Endpoint" with
    | none => exact ⟨"Endpoint", rfl⟩
    | some ep =>
      cases hp : connLookup s "SharedAccessKeyName" with
      | none => exact ⟨"SharedAccessKeyName", rfl⟩
      | some policy =>
        rw [h]
        exact ⟨"SharedAccessKeyValue", rfl⟩

/-- Witness for C7: a connection string lacking `SharedAccessKeyValue` is
rejected with a `ParseError`. -/
theorem C7_witness :
    ∃ f, from_connection_string
        "Endpoint=sb://ns.servicebus.windows.net;SharedAccessKeyName=p"
        Kwargs.empty
      = Except.error (PyError.parseError f) :=
  C7_missing_required_field_parse_error
    "Endpoint=sb://ns.servicebus.windows.net;SharedAccessKeyName=p"
    Kwargs.empty (Or.inr (Or.inr (by decide)))

/-- The retry loop stops the moment any attempt fails with a non-transient
error class, at whatever position in the loop it occurs: if attempts
`i, i+1, ..., i+j-1` fail transiently and attempt `i+j` fails with a
non-transient class `c` while attempts remain (`j < r`), the executor returns
`immediate c` after attempt `i+j`, retrying nothing further. -/
theorem runRetryFrom_nontransient_stops {α : Type} (op : Nat → AttemptResult α)
    (c : ErrClass) (hc : c ≠ ErrClass.transient) :
    ∀ (r i j : Nat), j < r →
      (∀ m, m < j → op (i + m) = AttemptResult.err ErrClass.transient) →
      op (i + j) = AttemptResult.err c →
      runRetryFrom op i r = RetryOutcome.immediate c (i + j + 1) := by
  intro r
  induction r with
  | zero =>
    intro i j hj _ _
    exact absurd hj (Nat.not_lt_zero j)
  | succ r ih =>
    intro i j hj hpre hje
    cases j with
    | zero =>
      have h0 : op i = AttemptResult.err c := by simpa using hje
      simp [runRetryFrom, h0, hc]
    | succ j2 =>
      have h0 : op i = AttemptResult.err ErrClass.transient := by
        simpa using hpre 0 (Nat.succ_pos j2)
      cases r with
      | zero => exact absurd (Nat.lt_of_succ_lt_succ hj) (Nat.not_lt_zero j2)
      | succ r2 =>
        have hpre2 : ∀ m, m < j2 → op (i + 1 + m) = AttemptResult.err ErrClass.transient := by
          intro m hm
          have h := hpre (m + 1) (Nat.succ_lt_succ hm)
          have he : i + 1 + m = i + (m + 1) := by omega
          rw [he]
          exact h
        have hje2 : op (i + 1 + j2) = AttemptResult.err c := by
          have he : i + 1 + j2 = i + (j2 + 1) := by omega
          rw [he]
          exact hje
        have hr := ih (i + 1) j2 (Nat.lt_of_succ_lt_succ hj) hpre2 hje2
        have he : i + 1 + j2 + 1 = i + (j2 + 1) + 1 := by omega
        calc runRetryFrom op i (Nat.succ (Nat.succ r2))
            = runRetryFrom op (i + 1) (Nat.succ r2) := by
              simp [runRetryFrom, h0]
          _ = RetryOutcome.immediate c (i + 1 + j2 + 1) := hr
          _ = RetryOutcome.immediate c (i + (j2 + 1) + 1) := by rw [he]

/-- C8: under the retry executor with `retry_total = 3`, an operation whose
first three attempts all fail transiently yields `ServiceBusError` (carrying the
last error class) after exactly 3 attempts — the outcome is fully determined by
attempts 0, 1 and 2, so a 4th attempt is never consulted — while an operation
whose attempt `j` (for any `j` within the attempt budget, after `j` transient
failures) fails with a non-transient class (authorization or validation)
propagates that error immediately after attempt `j + 1`, with no retry of the
non-transient error at any position in the loop. -/
theorem C8_retry_executor :
    (∀ (op : Nat → AttemptResult Unit),
        op 0 = AttemptResult.err ErrClass.transient →
        op 1 = AttemptResult.err ErrClass.transient →
        op 2 = AttemptResult.err ErrClass.transient →
        runRetry op 3 = RetryOutcome.serviceBusError ErrClass.transient 3)
    ∧ (∀ (op : Nat → AttemptResult Unit) (c : ErrClass) (j : Nat),
        c ≠ ErrClass.transient →
        j < 3 →
        (∀ m, m < j → op m = AttemptResult.err ErrClass.transient) →
        op j = AttemptResult.err c →
        runRetry op 3 = RetryOutcome.immediate c (j + 1)) := by
  constructor
  · intro op h0 h1 h2
    simp [runRetry, runRetryFrom, h0, h1, h2]
  · intro op c j hc hj hpre hje
    have hpre0 : ∀ m, m < j → op (0 + m) = AttemptResult.err ErrClass.transient := by
      intro m hm
      simpa using hpre m hm
    have hje0 : op (0 + j) = AttemptResult.err c := by simpa using hje
    have h := runRetryFrom_nontransient_stops op c hc 3 0 j hj hpre0 hje0
    simpa [runRetry] using h

/-- Witness for C8: an operation failing transiently on every attempt, and one
failing transiently on attempt 0 and with an authorization error on attempt 1 —
the authorization error is propagated at once after the 2nd attempt instead of
being retried. -/
theorem C8_witness :
    runRetry (fun _ => AttemptResult.err (α := Unit) ErrClass.transient) 3
      = RetryOutcome.serviceBusError ErrClass.transient 3
    ∧ runRetry
        (fun i => if i = 0 then AttemptResult.err (α := Unit) ErrClass.transient
          else AttemptResult.err ErrClass.authorization) 3
      = RetryOutcome.immediate ErrClass.authorization 2 :=
  ⟨C8_retry_executor.1 (fun _ => AttemptResult.err ErrClass.transient) rfl rfl rfl,
   C8_retry_executor.2
     (fun i => if i = 0 then AttemptResult.err ErrClass.transient
       else AttemptResult.err ErrClass.authorization)
     ErrClass.authorization 1 (by decide) (by decide)
     (fun m hm => by
       have hm0 : m = 0 := by omega
       subst hm0
       rfl)
     (by decide)⟩

/-- Any sequence of public operations preserves `_connection_sharing = False`
and `_connection = None`. -/
theorem run_preserves_no_sharing (c : ServiceBusClient) (ops : List Op)
    (h1 : c.connection_sharing = false) (h2 : c.connection = none) :
    (run c ops).connection_sharing = false ∧ (run c ops).connection = none := by
  induction ops generalizing c with
  | nil => exact ⟨h1, h2⟩
  | cons op rest ih =>
    have hstep : (step c op).connection_sharing = false
        ∧ (step c op).connection = none := by
      cases op <;>
        simp [step, ServiceBusClient.enter, ServiceBusClient.close,
          ServiceBusClient.exitScope, ServiceBusClient.get_queue_sender,
          ServiceBusClient.get_queue_receiver, h1, h2]
    exact ih (step c op) hstep.1 hstep.2

/-- C9: a constructed client starts with `_connection_sharing = False`, and no
sequence of public operations ever flips it; consequently `_connection` stays
`None` forever, entering a managed scope never creates a connection, `close()`
never destroys one, and every sender and receiver produced along the way is
constructed with `connection = None`. -/
theorem C9_connection_sharing_permanently_disabled
    (fqns : String) (cred : Credential) (kwargs : Kwargs) (ops : List Op) :
    ((run (ServiceBusClient.init fqns cred kwargs) ops).connection_sharing = false)
    ∧ ((run (ServiceBusClient.init fqns cred kwargs) ops).connection = none)
    ∧ ((run (ServiceBusClient.init fqns cred kwargs) ops).enter
        = run (ServiceBusClient.init fqns cred kwargs) ops)
    ∧ ((run (ServiceBusClient.init fqns cred kwargs) ops).close
        = run (ServiceBusClient.init fqns cred kwargs) ops)
    ∧ (∀ q k, ((run (ServiceBusClient.init fqns cred kwargs) ops).get_queue_sender
        q k).1.connection = none)
    ∧ (∀ q k, ((run (ServiceBusClient.init fqns cred kwargs) ops).get_queue_receiver
        q k).1.connection = none) := by
  obtain ⟨h1, h2⟩ :=
    run_preserves_no_sharing (ServiceBusClient.init fqns cred kwargs) ops rfl rfl
  refine ⟨h1, h2, ?_, ?_, ?_, ?_⟩
  · simp [ServiceBusClient.enter, h1]
  · simp [ServiceBusClient.close, h1]
  · intro q k
    simpa [ServiceBusClient.get_queue_sender] using h2
  · intro q k
    simpa [ServiceBusClient.get_queue_receiver] using h2

/-- C10: `get_queue_sender` and `get_queue_receiver` leave the client state
completely unchanged — every attribute keeps its prior value — and the value
returned is a sender (resp. receiver) freshly constructed from the client's
current namespace, credential, configuration and connection, the queue name, and
the per-call `retry_total` (default 3). -/
theorem C10_getters_pure (c : ServiceBusClient) (q : String) (k : CallKwargs) :
    ((c.get_queue_sender q k).2 = c)
    ∧ ((c.get_queue_receiver q k).2 = c)
    ∧ ((c.get_queue_sender q k).1 =
        { fully_qualified_namespace := c.fully_qualified_namespace
          queue_name := q
          credential := c.credential
          logging_enable := c.config.logging_enable
          transport_type := c.config.transport_type
          http_proxy := c.config.http_proxy
          connection := c.connection
          retry_total := k.retry_total.getD 3 })
    ∧ ((c.get_queue_receiver q k).1 =
        { fully_qualified_namespace := c.fully_qualified_namespace
          queue_name := q
          credential := c.credential
          logging_enable := c.config.logging_enable
          transport_type := c.config.transport_type
          http_proxy := c.config.http_proxy
          connection := c.connection
          retry_total := k.retry_total.getD 3 }) :=
  ⟨rfl, rfl, rfl, rfl⟩

end AzureSB
